import Mathlib

/-!
Shallow embedding of the control core of the Sony IMX377 V4L2 sensor driver
(`src/imx377.c`): register transport, power sequencer, streaming state
machine and control plane.  Bus outcomes (the return value of
`i2c_master_send`) and the outcome of each `regulator_enable` /
`clk_prepare_enable` call are passed in as explicit oracle parameters,
since they are decided by hardware.  Every operation additionally returns
the ordered trace of side effects it performed (resource enables, resource
disables, register-write bus transactions).
-/

namespace IMX377

/-- The C errno constant EIO (5); the driver returns `-EIO` on a short
bus transfer. -/
def EIO_code : Int := 5

/-- Register address `IMX377_STANDBY` (source line 29). -/
def IMX377_STANDBY : Nat := 0x3000

/-- Register address `IMX377_REG_MODE_SELECT` (source line 30):
0x00 = standby, 0x01 = streaming. -/
def IMX377_REG_MODE_SELECT : Nat := 0x0100

/-- Register address `IMX377_REG_GAIN_H` (source line 31). -/
def IMX377_REG_GAIN_H : Nat := 0x3009

/-- Register address `IMX377_REG_GAIN_L` (source line 32). -/
def IMX377_REG_GAIN_L : Nat := 0x300A

/-- Register address `IMX377_REG_EXPOSURE_H` (source line 33). -/
def IMX377_REG_EXPOSURE_H : Nat := 0x300B

/-- Register address `IMX377_REG_EXPOSURE_L` (source line 34). -/
def IMX377_REG_EXPOSURE_L : Nat := 0x300C

/-- The V4L2 control id `V4L2_CID_EXPOSURE` (`V4L2_CID_BASE + 17`,
from the kernel uapi headers the driver includes). -/
def V4L2_CID_EXPOSURE : Nat := 0x00980911

/-- The V4L2 control id `V4L2_CID_ANALOGUE_GAIN`
(`V4L2_CID_IMAGE_SOURCE_CLASS_BASE + 3`, from the kernel uapi headers). -/
def V4L2_CID_ANALOGUE_GAIN : Nat := 0x009e0903

/-- The four power resources the sequencer manages, in acquisition order:
digital rail `dvdd`, analog rail `avdd`, I/O rail `dovdd`, clock `xclk`
(source lines 111-119). -/
inductive Rail where
  | dvdd
  | avdd
  | dovdd
  | clk
deriving DecidableEq, Repr

/-- One observable side effect of the driver: enabling a power resource,
disabling a power resource, or issuing a register-write bus transaction
(register address and payload byte). -/
inductive Event where
  | en : Rail → Event
  | dis : Rail → Event
  | wr : Nat → Nat → Event
deriving DecidableEq, Repr

/-- The power-relevant fields of `struct imx377` (source lines 60-79):
one enabled-bit per rail and for the clock (these model the physical
enabled state of the resource — the struct itself holds no such flags),
plus presence and level of the two optional GPIO lines. -/
structure Power where
  dvdd : Bool
  avdd : Bool
  dovdd : Bool
  clk : Bool
  hasReset : Bool
  hasPwdn : Bool
  resetVal : Bool
  pwdnVal : Bool
deriving DecidableEq, Repr

/-- Outcome oracle for the four enable calls made by `imx377_power_on`:
the int each of `regulator_enable(dvdd)`, `regulator_enable(avdd)`,
`regulator_enable(dovdd)` and `clk_prepare_enable(xclk)` would return
(0 = success, nonzero = failure, as tested by `if (ret)`). -/
structure PowerEnv where
  dvdd : Int
  avdd : Int
  dovdd : Int
  clk : Int
deriving DecidableEq, Repr

/-- The mutable device state the claims are about: power resource state,
the `streaming` flag (source line 78), and the stored control values
owned by the v4l2 control framework. -/
structure Device where
  power : Power
  streaming : Bool
  gain : Nat
  exposure : Nat
deriving DecidableEq, Repr

/-- A fully off power state with both optional GPIO lines absent. -/
def powerInit : Power :=
  { dvdd := false, avdd := false, dovdd := false, clk := false
    hasReset := false, hasPwdn := false, resetVal := false, pwdnVal := false }

/-- The initial device state after probe: unpowered, not streaming,
control defaults gain 0 and exposure 0x03E8 (source lines 305-308). -/
def devInit : Device :=
  { power := powerInit, streaming := false, gain := 0, exposure := 0x03E8 }

/-- The buffer of the single bus transaction issued by `imx377_write_reg`
(source line 87): `u8 buf[3] = \x7b reg >> 8, reg & 0xff, val \x7d`. -/
def imx377_write_reg_buf (reg val : Nat) : List Nat :=
  [reg >>> 8, reg &&& 0xff, val]

/-- `imx377_write_reg` (source lines 85-90).  `sendRet` is the value
returned by `i2c_master_send` for the one 3-byte transaction; the
function returns `(ret == 3) ? 0 : (ret < 0 ? ret : -EIO)` together with
the trace of the single register-write transaction it issued. -/
def imx377_write_reg (sendRet : Int) (reg val : Nat) : Int × List Event :=
  (if sendRet = 3 then 0 else if sendRet < 0 then sendRet else -EIO_code,
   [Event.wr reg val])

/-- `imx377_power_on` (source lines 107-137): enables dvdd, avdd, dovdd
then the clock in that order; on the first failure it jumps to the
rollback labels, disabling the already-enabled resources in exact reverse
order and returning the triggering error.  On success it raises the reset
line, lowers the power-down line (each only if present) and returns 0. -/
def imx377_power_on (env : PowerEnv) (p : Power) : Int × Power × List Event :=
  if env.dvdd ≠ 0 then (env.dvdd, p, [])
  else
    let pa := { p with dvdd := true }
    if env.avdd ≠ 0 then
      (env.avdd, { pa with dvdd := false },
       [Event.en Rail.dvdd, Event.dis Rail.dvdd])
    else
      let pb := { pa with avdd := true }
      if env.dovdd ≠ 0 then
        (env.dovdd, { pb with avdd := false, dvdd := false },
         [Event.en Rail.dvdd, Event.en Rail.avdd,
          Event.dis Rail.avdd, Event.dis Rail.dvdd])
      else
        let pc := { pb with dovdd := true }
        if env.clk ≠ 0 then
          (env.clk, { pc with dovdd := false, avdd := false, dvdd := false },
           [Event.en Rail.dvdd, Event.en Rail.avdd, Event.en Rail.dovdd,
            Event.dis Rail.dovdd, Event.dis Rail.avdd, Event.dis Rail.dvdd])
        else
          let pd := { pc with clk := true }
          let pe := if pd.hasReset then { pd with resetVal := true } else pd
          let pf := if pe.hasPwdn then { pe with pwdnVal := false } else pe
          (0, pf,
           [Event.en Rail.dvdd, Event.en Rail.avdd, Event.en Rail.dovdd,
            Event.en Rail.clk])

/-- `imx377_power_off` (source lines 139-150): lowers reset and raises
power-down (each only if the GPIO is present), then unconditionally
disables the clock and the three rails in reverse acquisition order.
There is no per-resource enabled-flag guard in the source. -/
def imx377_power_off (p : Power) : Power × List Event :=
  let p1 := if p.hasReset then { p with resetVal := false } else p
  let p2 := if p1.hasPwdn then { p1 with pwdnVal := true } else p1
  ({ p2 with clk := false, dovdd := false, avdd := false, dvdd := false },
   [Event.dis Rail.clk, Event.dis Rail.dovdd, Event.dis Rail.avdd,
    Event.dis Rail.dvdd])

/-- `imx377_start_streaming` (source lines 156-181): power on; on
success write 0x00 to the standby register and 0x01 to the mode-select
register; if either write fails, power off and return that error; on
full success set the streaming flag.  `standbyRet` and `modeRet` are the
bus outcomes of the two writes. -/
def imx377_start_streaming (env : PowerEnv) (standbyRet modeRet : Int)
    (d : Device) : Int × Device × List Event :=
  let r := imx377_power_on env d.power
  if r.1 ≠ 0 then (r.1, { d with power := r.2.1 }, r.2.2)
  else
    let w1 := imx377_write_reg standbyRet IMX377_STANDBY 0x00
    if w1.1 ≠ 0 then
      let off := imx377_power_off r.2.1
      (w1.1, { d with power := off.1 }, r.2.2 ++ w1.2 ++ off.2)
    else
      let w2 := imx377_write_reg modeRet IMX377_REG_MODE_SELECT 0x01
      if w2.1 ≠ 0 then
        let off := imx377_power_off r.2.1
        (w2.1, { d with power := off.1 }, r.2.2 ++ w1.2 ++ w2.2 ++ off.2)
      else
        (0, { d with power := r.2.1, streaming := true },
         r.2.2 ++ w1.2 ++ w2.2)

/-- `imx377_stop_streaming` (source lines 183-189): write 0x00 to the
mode-select register (keeping its status), clear the streaming flag,
unconditionally power off, and return the write's status. -/
def imx377_stop_streaming (modeRet : Int) (d : Device) :
    Int × Device × List Event :=
  let w := imx377_write_reg modeRet IMX377_REG_MODE_SELECT 0x00
  let off := imx377_power_off d.power
  (w.1, { d with streaming := false, power := off.1 }, w.2 ++ off.2)

/-- Gain high-byte encoding used at source line 213: `(val >> 8) & 0x07`. -/
def gainEncodeHigh (v : Nat) : Nat := (v >>> 8) &&& 0x07

/-- Gain low-byte encoding used at source line 214: `val & 0xFF`. -/
def gainEncodeLow (v : Nat) : Nat := v &&& 0xFF

/-- Modelled from the spec: the round-trip property of §8 defines decoding
the two gain register values back as `high << 8 | low`; the source itself
never decodes. -/
def gainDecode (hi lo : Nat) : Nat := (hi <<< 8) ||| lo

/-- `imx377_set_ctrl` (source lines 195-218): if not streaming, return 0
immediately (defer until streaming).  Otherwise dispatch on the control
id: exposure writes its high and low bytes to 0x300B/0x300C, analogue
gain writes its high and low bytes to 0x3009/0x300A; in both cases the
two write statuses are combined with C bitwise OR (`ret |= ...`).  Any
other id falls through the switch and returns the initial 0.  `r1`/`r2`
are the bus outcomes of the first and second write. -/
def imx377_set_ctrl (streaming : Bool) (id : Nat) (val : Nat)
    (r1 r2 : Int) : Int × List Event :=
  if streaming = false then (0, [])
  else if id = V4L2_CID_EXPOSURE then
    let w1 := imx377_write_reg r1 IMX377_REG_EXPOSURE_H ((val >>> 8) &&& 0xFF)
    let w2 := imx377_write_reg r2 IMX377_REG_EXPOSURE_L (val &&& 0xFF)
    (Int.lor w1.1 w2.1, w1.2 ++ w2.2)
  else if id = V4L2_CID_ANALOGUE_GAIN then
    let w1 := imx377_write_reg r1 IMX377_REG_GAIN_H (gainEncodeHigh val)
    let w2 := imx377_write_reg r2 IMX377_REG_GAIN_L (gainEncodeLow val)
    (Int.lor w1.1 w2.1, w1.2 ++ w2.2)
  else (0, [])

/-- Modelled from the spec: the control-handling framework (an excluded
collaborator, spec section 6) owns value storage — it records the already
validated value as the control's current value when the driver's `s_ctrl`
handler returns success.  `set_control` is that framework wrapper around
`imx377_set_ctrl`. -/
def set_control (id : Nat) (val : Nat) (r1 r2 : Int) (d : Device) :
    Int × Device × List Event :=
  let r := imx377_set_ctrl d.streaming id val r1 r2
  let d1 :=
    if r.1 = 0 then
      if id = V4L2_CID_ANALOGUE_GAIN then { d with gain := val }
      else if id = V4L2_CID_EXPOSURE then { d with exposure := val }
      else d
    else d
  (r.1, d1, r.2)

/-- The rails the sequencer walks backward on teardown: the disable
trace of one `imx377_power_off` call. -/
def offEvents : List Event :=
  [Event.dis Rail.clk, Event.dis Rail.dovdd, Event.dis Rail.avdd,
   Event.dis Rail.dvdd]

/-- The resources successfully enabled in a trace, in order. -/
def enablesOf : List Event → List Rail
  | [] => []
  | Event.en r :: t => r :: enablesOf t
  | _ :: t => enablesOf t

/-- The resources whose disable operation was invoked in a trace, in order. -/
def disablesOf : List Event → List Rail
  | [] => []
  | Event.dis r :: t => r :: disablesOf t
  | _ :: t => disablesOf t

/-- The register-write transactions issued in a trace, in order. -/
def writesOf : List Event → List (Nat × Nat)
  | [] => []
  | Event.wr reg v :: t => (reg, v) :: writesOf t
  | _ :: t => writesOf t

/-- All four power resources (three rails and the clock) are disabled. -/
def railsOff (p : Power) : Prop :=
  p.dvdd = false ∧ p.avdd = false ∧ p.dovdd = false ∧ p.clk = false

instance (p : Power) : Decidable (railsOff p) := by
  unfold railsOff
  infer_instance

/-- The error of the first failing enable step of `imx377_power_on`,
walking the fixed order dvdd, avdd, dovdd, clock; 0 when every step
succeeds. -/
def firstErr (env : PowerEnv) : Int :=
  if env.dvdd ≠ 0 then env.dvdd
  else if env.avdd ≠ 0 then env.avdd
  else if env.dovdd ≠ 0 then env.dovdd
  else if env.clk ≠ 0 then env.clk
  else 0

theorem wr_ret_eq_zero_iff (sendRet : Int) (reg val : Nat) :
    (imx377_write_reg sendRet reg val).1 = 0 ↔ sendRet = 3 := by
  unfold imx377_write_reg EIO_code
  constructor
  · intro h
    by_contra hne
    rw [if_neg hne] at h
    split_ifs at h <;> omega
  · intro h
    simp [h]

theorem power_off_rails_off (p : Power) : railsOff (imx377_power_off p).1 := by
  unfold imx377_power_off railsOff
  split_ifs <;> simp

theorem power_off_events (p : Power) : (imx377_power_off p).2 = offEvents := rfl

theorem nat_ldiff_zero (m : Nat) : Nat.ldiff m 0 = m := by
  apply Nat.eq_of_testBit_eq
  intro i
  simp [Nat.testBit_ldiff]

theorem int_lor_zero (x : Int) : Int.lor x 0 = x := by
  cases x <;> simp [Int.lor, nat_ldiff_zero]

theorem int_zero_lor (x : Int) : Int.lor 0 x = x := by
  cases x <;> simp [Int.lor, nat_ldiff_zero]

/-- C3: for every outcome of the mode-select register write,
`imx377_stop_streaming` returns exactly that write's status, clears the
streaming flag, unconditionally invokes `imx377_power_off` (the trace is
the single mode-select write followed by the power-off disable
sequence), and leaves every power resource disabled. -/
theorem stop_streaming_always_powers_off (modeRet : Int) (d : Device) :
    (imx377_stop_streaming modeRet d).1 =
      (imx377_write_reg modeRet IMX377_REG_MODE_SELECT 0x00).1 ∧
    (imx377_stop_streaming modeRet d).2.1.streaming = false ∧
    railsOff (imx377_stop_streaming modeRet d).2.1.power ∧
    (imx377_stop_streaming modeRet d).2.2 =
      Event.wr IMX377_REG_MODE_SELECT 0x00 :: offEvents := by
  unfold imx377_stop_streaming imx377_power_off imx377_write_reg railsOff
    offEvents
  split_ifs <;> simp

/-- C4 counterexample: starting from the fully-off power state, a first
`imx377_power_off` already records a disable call for the never-enabled
dvdd rail, and a second consecutive `imx377_power_off` records disable
calls again — the disable operations are not guarded by per-resource
enabled flags, so duplicate disable calls are issued. -/
theorem power_off_not_flag_guarded :
    (imx377_power_off powerInit).1.dvdd = false ∧
    disablesOf (imx377_power_off (imx377_power_off powerInit).1).2 ≠ [] ∧
    Event.dis Rail.dvdd ∈ (imx377_power_off powerInit).2 ∧
    Event.dis Rail.dvdd ∈ (imx377_power_off (imx377_power_off powerInit).1).2 ∧
    powerInit.dvdd = false := by decide

/-- C4 amended: `imx377_power_off` has no per-resource enabled-flag
guard — for every power state, including an already fully-off one, it
unconditionally issues the four disable calls (clock, dovdd, avdd, dvdd,
i.e. exact reverse acquisition order) and leaves all resources disabled;
hence a second consecutive call reissues the same four disable calls on
already-disabled resources. -/
theorem power_off_unconditional_disables (p : Power) :
    (imx377_power_off p).2 = offEvents ∧
    railsOff (imx377_power_off p).1 ∧
    (imx377_power_off (imx377_power_off p).1).2 = offEvents := by
  unfold imx377_power_off railsOff offEvents
  split_ifs <;> simp

/-- C8: for every gain value in 0..0x7A5, encoding it into the two gain
registers (high byte `(v >> 8) & 0x07`, low byte `v & 0xFF`) and
decoding the two register values back (`high << 8 | low`) reproduces the
original value. -/
theorem gain_roundtrip (v : Nat) (hv : v ≤ 0x7A5) :
    gainDecode (gainEncodeHigh v) (gainEncodeLow v) = v := by
  unfold gainDecode gainEncodeHigh gainEncodeLow
  have h1 : v >>> 8 = v / 256 := by
    simpa using Nat.shiftRight_eq_div_pow v 8
  have h2 : v / 256 &&& 0x07 = v / 256 := by
    have hlt : v / 256 < 8 := by omega
    have h := Nat.and_pow_two_sub_one_eq_mod (v / 256) 3
    norm_num at h
    rw [h, Nat.mod_eq_of_lt hlt]
  have h3 : v &&& 0xFF = v % 256 := by
    have h := Nat.and_pow_two_sub_one_eq_mod v 8
    norm_num at h
    exact h
  have h4 : (v / 256) <<< 8 = 256 * (v / 256) := by
    rw [Nat.shiftLeft_eq]
    ring
  have h5 : 256 * (v / 256) ||| v % 256 = 256 * (v / 256) + v % 256 := by
    have hb : v % 256 < 2 ^ 8 := by omega
    have h := Nat.mul_add_lt_is_or (a := v / 256) hb
    norm_num at h ⊢
    omega
  rw [h1, h2, h3, h4, h5]
  omega

/-- C8 witness: the round trip at the top of the gain range, 0x7A5. -/
theorem gain_roundtrip_witness :
    gainDecode (gainEncodeHigh 0x7A5) (gainEncodeLow 0x7A5) = 0x7A5 :=
  gain_roundtrip 0x7A5 (by decide)

/-- C9: `imx377_write_reg` issues exactly one bus transaction whose
3-byte buffer is `[reg >> 8, reg & 0xff, val]`; it returns success (0)
exactly when the bus reports all 3 bytes moved, returns `-EIO` (short
transfer) when the bus reports a non-negative count below 3, and returns
the underlying bus error code itself when the bus returns a negative
transport-level failure. -/
theorem write_reg_contract (sendRet : Int) (reg val : Nat) :
    (imx377_write_reg sendRet reg val).2 = [Event.wr reg val] ∧
    imx377_write_reg_buf reg val = [reg >>> 8, reg &&& 0xff, val] ∧
    (imx377_write_reg_buf reg val).length = 3 ∧
    ((imx377_write_reg sendRet reg val).1 = 0 ↔ sendRet = 3) ∧
    (0 ≤ sendRet → sendRet < 3 → (imx377_write_reg sendRet reg val).1 = -EIO_code) ∧
    (sendRet < 0 → (imx377_write_reg sendRet reg val).1 = sendRet) := by
  unfold imx377_write_reg imx377_write_reg_buf EIO_code
  refine ⟨rfl, rfl, rfl, ?_, ?_, ?_⟩
  · constructor
    · intro h
      by_contra hne
      rw [if_neg hne] at h
      split_ifs at h <;> omega
    · intro h
      rw [if_pos h]
  · intro h0 h3
    have hne : sendRet ≠ 3 := by omega
    have hnl : ¬ sendRet < 0 := by omega
    simp [hne, hnl]
  · intro hneg
    have hne : sendRet ≠ 3 := by omega
    simp [hne, hneg]

/-- C9 witness: the three outcome classes at concrete bus returns —
3 bytes moved gives success, 2 bytes moved gives `-EIO`, and a bus fault
(-70) is passed through. -/
theorem write_reg_contract_witness :
    (imx377_write_reg 3 IMX377_STANDBY 0x00).1 = 0 ∧
    (imx377_write_reg 2 IMX377_STANDBY 0x00).1 = -EIO_code ∧
    (imx377_write_reg (-70) IMX377_STANDBY 0x00).1 = -70 :=
  ⟨(write_reg_contract 3 IMX377_STANDBY 0x00).2.2.2.1.mpr (by decide),
   (write_reg_contract 2 IMX377_STANDBY 0x00).2.2.2.2.1 (by decide) (by decide),
   (write_reg_contract (-70) IMX377_STANDBY 0x00).2.2.2.2.2 (by decide)⟩

/-- C10: for every control id other than exposure and analogue gain,
`imx377_set_ctrl` while streaming returns 0 and issues no register
writes — the switch has no failure branch for unrecognized ids. -/
theorem set_ctrl_unknown_id (id v : Nat) (r1 r2 : Int)
    (h1 : id ≠ V4L2_CID_EXPOSURE) (h2 : id ≠ V4L2_CID_ANALOGUE_GAIN) :
    imx377_set_ctrl true id v r1 r2 = (0, []) := by
  simp [imx377_set_ctrl, h1, h2]

/-- C10 witness: the unknown control id 0 with arbitrary value and bus
outcomes is silently accepted with no hardware effect. -/
theorem set_ctrl_unknown_id_witness :
    imx377_set_ctrl true 0 12345 (-6) (-5) = (0, []) :=
  set_ctrl_unknown_id 0 12345 (-6) (-5) (by decide) (by decide)

/-- C1: starting from the fully-off state, whenever `imx377_power_on`
fails (at any of the four enable steps dvdd, avdd, dovdd, clock) it
returns the triggering error — the error of the first failing step — the
disable calls it issued are exactly the resources it had enabled, in
reverse order of their enabling, no register write is issued, and no
resource is left enabled afterwards. -/
theorem power_on_rollback (env : PowerEnv) (p : Power) (hp : railsOff p)
    (hfail : (imx377_power_on env p).1 ≠ 0) :
    (imx377_power_on env p).1 = firstErr env ∧
    firstErr env ≠ 0 ∧
    railsOff (imx377_power_on env p).2.1 ∧
    disablesOf (imx377_power_on env p).2.2 =
      (enablesOf (imx377_power_on env p).2.2).reverse ∧
    writesOf (imx377_power_on env p).2.2 = [] := by
  obtain ⟨o1, o2, o3, o4⟩ := hp
  by_cases h1 : env.dvdd = 0 <;> by_cases h2 : env.avdd = 0 <;>
    by_cases h3 : env.dovdd = 0 <;> by_cases h4 : env.clk = 0 <;>
    simp [imx377_power_on, firstErr, railsOff, disablesOf, enablesOf,
      writesOf, h1, h2, h3, h4, o1, o2, o3, o4] at hfail ⊢

/-- C1 witness: failure injected at the third step (dovdd returns -22):
power_on returns -22, rolls back avdd then dvdd, and leaves all
resources disabled. -/
theorem power_on_rollback_witness :
    railsOff (imx377_power_on ⟨0, 0, -22, 0⟩ powerInit).2.1 ∧
    (imx377_power_on ⟨0, 0, -22, 0⟩ powerInit).1 = firstErr ⟨0, 0, -22, 0⟩ :=
  ⟨(power_on_rollback ⟨0, 0, -22, 0⟩ powerInit (by decide) (by decide)).2.2.1,
   (power_on_rollback ⟨0, 0, -22, 0⟩ powerInit (by decide) (by decide)).1⟩

/-- C2: when power-on succeeded but one of the two register writes of
`imx377_start_streaming` fails (the standby write or the mode-select
write), the call returns that write's error, the device ends the call
with the streaming flag false (given it started Idle), every power
resource is disabled, and the trace ends with the `imx377_power_off`
disable sequence — power_off was invoked before returning the error. -/
theorem start_streaming_failure_cleanup (env : PowerEnv) (r1 r2 : Int)
    (d : Device) (hidle : d.streaming = false)
    (hpw : env.dvdd = 0 ∧ env.avdd = 0 ∧ env.dovdd = 0 ∧ env.clk = 0)
    (hfail : (imx377_start_streaming env r1 r2 d).1 ≠ 0) :
    (imx377_start_streaming env r1 r2 d).2.1.streaming = false ∧
    railsOff (imx377_start_streaming env r1 r2 d).2.1.power ∧
    ((imx377_write_reg r1 IMX377_STANDBY 0x00).1 ≠ 0 ∧
       (imx377_start_streaming env r1 r2 d).1 =
         (imx377_write_reg r1 IMX377_STANDBY 0x00).1 ∨
     (imx377_write_reg r1 IMX377_STANDBY 0x00).1 = 0 ∧
       (imx377_write_reg r2 IMX377_REG_MODE_SELECT 0x01).1 ≠ 0 ∧
       (imx377_start_streaming env r1 r2 d).1 =
         (imx377_write_reg r2 IMX377_REG_MODE_SELECT 0x01).1) ∧
    (∃ pre, (imx377_start_streaming env r1 r2 d).2.2 = pre ++ offEvents) := by
  obtain ⟨e1, e2, e3, e4⟩ := hpw
  have hon : (imx377_power_on env d.power).1 = 0 := by
    simp [imx377_power_on, e1, e2, e3, e4]
  by_cases hw1 : r1 = 3
  · have hv1 : (imx377_write_reg r1 IMX377_STANDBY 0x00).1 = 0 :=
      (wr_ret_eq_zero_iff r1 IMX377_STANDBY 0x00).mpr hw1
    by_cases hw2 : r2 = 3
    · have hv2 : (imx377_write_reg r2 IMX377_REG_MODE_SELECT 0x01).1 = 0 :=
        (wr_ret_eq_zero_iff r2 IMX377_REG_MODE_SELECT 0x01).mpr hw2
      have key : (imx377_start_streaming env r1 r2 d).1 = 0 := by
        simp [imx377_start_streaming, hon, hv1, hv2]
      exact absurd key hfail
    · have hv2 : (imx377_write_reg r2 IMX377_REG_MODE_SELECT 0x01).1 ≠ 0 :=
        fun h => hw2 ((wr_ret_eq_zero_iff r2 IMX377_REG_MODE_SELECT 0x01).mp h)
      have key : imx377_start_streaming env r1 r2 d =
          ((imx377_write_reg r2 IMX377_REG_MODE_SELECT 0x01).1,
           { d with
              power := (imx377_power_off (imx377_power_on env d.power).2.1).1 },
           (imx377_power_on env d.power).2.2 ++
             (imx377_write_reg r1 IMX377_STANDBY 0x00).2 ++
             (imx377_write_reg r2 IMX377_REG_MODE_SELECT 0x01).2 ++
             (imx377_power_off (imx377_power_on env d.power).2.1).2) := by
        simp [imx377_start_streaming, hon, hv1, hv2]
      rw [key]
      refine ⟨hidle, power_off_rails_off _, Or.inr ⟨hv1, hv2, rfl⟩, ?_⟩
      rw [power_off_events]
      exact ⟨_, rfl⟩
  · have hv1 : (imx377_write_reg r1 IMX377_STANDBY 0x00).1 ≠ 0 :=
      fun h => hw1 ((wr_ret_eq_zero_iff r1 IMX377_STANDBY 0x00).mp h)
    have key : imx377_start_streaming env r1 r2 d =
        ((imx377_write_reg r1 IMX377_STANDBY 0x00).1,
         { d with
            power := (imx377_power_off (imx377_power_on env d.power).2.1).1 },
         (imx377_power_on env d.power).2.2 ++
           (imx377_write_reg r1 IMX377_STANDBY 0x00).2 ++
           (imx377_power_off (imx377_power_on env d.power).2.1).2) := by
      simp [imx377_start_streaming, hon, hv1]
    rw [key]
    refine ⟨hidle, power_off_rails_off _, Or.inl ⟨hv1, rfl⟩, ?_⟩
    rw [power_off_events]
    exact ⟨_, rfl⟩

/-- C2 witness: with power-on succeeding and the mode-select write
failing short (2 of 3 bytes moved), start_streaming from the initial
device leaves the streaming flag false and all power resources
disabled. -/
theorem start_streaming_failure_cleanup_witness :
    (imx377_start_streaming ⟨0, 0, 0, 0⟩ 3 2 devInit).2.1.streaming = false ∧
    railsOff (imx377_start_streaming ⟨0, 0, 0, 0⟩ 3 2 devInit).2.1.power :=
  ⟨(start_streaming_failure_cleanup ⟨0, 0, 0, 0⟩ 3 2 devInit (by decide)
      (by decide) (by decide)).1,
   (start_streaming_failure_cleanup ⟨0, 0, 0, 0⟩ 3 2 devInit (by decide)
      (by decide) (by decide)).2.1⟩

/-- C5 counterexample: while streaming, with the exposure-high write
failing with bus error -6 and the exposure-low write failing with bus
error -5, `imx377_set_ctrl` returns the bitwise OR -5 — not the first
error encountered, which was -6. -/
theorem set_ctrl_first_error_counterexample :
    (imx377_write_reg (-6) IMX377_REG_EXPOSURE_H
      ((0x0100 >>> 8) &&& 0xFF)).1 = -6 ∧
    (imx377_set_ctrl true V4L2_CID_EXPOSURE 0x0100 (-6) (-5)).1 = -5 ∧
    ((-5 : Int) ≠ -6) := by decide

/-- C5 amended: while streaming, for each of the two controls both
register writes are attempted and the returned status is the C bitwise
OR (two's complement) of the two write statuses; consequently when the
other write succeeds the sole failing write's error is returned, but
when both writes fail the result is an arithmetic combination of the two
codes that can differ from the first error encountered. -/
theorem set_ctrl_or_aggregation (v : Nat) (r1 r2 : Int) :
    ((imx377_set_ctrl true V4L2_CID_EXPOSURE v r1 r2).2 =
       [Event.wr IMX377_REG_EXPOSURE_H ((v >>> 8) &&& 0xFF),
        Event.wr IMX377_REG_EXPOSURE_L (v &&& 0xFF)] ∧
     (imx377_set_ctrl true V4L2_CID_EXPOSURE v r1 r2).1 =
       Int.lor
         (imx377_write_reg r1 IMX377_REG_EXPOSURE_H ((v >>> 8) &&& 0xFF)).1
         (imx377_write_reg r2 IMX377_REG_EXPOSURE_L (v &&& 0xFF)).1 ∧
     ((imx377_write_reg r1 IMX377_REG_EXPOSURE_H ((v >>> 8) &&& 0xFF)).1 = 0 →
       (imx377_set_ctrl true V4L2_CID_EXPOSURE v r1 r2).1 =
         (imx377_write_reg r2 IMX377_REG_EXPOSURE_L (v &&& 0xFF)).1) ∧
     ((imx377_write_reg r2 IMX377_REG_EXPOSURE_L (v &&& 0xFF)).1 = 0 →
       (imx377_set_ctrl true V4L2_CID_EXPOSURE v r1 r2).1 =
         (imx377_write_reg r1 IMX377_REG_EXPOSURE_H ((v >>> 8) &&& 0xFF)).1)) ∧
    ((imx377_set_ctrl true V4L2_CID_ANALOGUE_GAIN v r1 r2).2 =
       [Event.wr IMX377_REG_GAIN_H (gainEncodeHigh v),
        Event.wr IMX377_REG_GAIN_L (gainEncodeLow v)] ∧
     (imx377_set_ctrl true V4L2_CID_ANALOGUE_GAIN v r1 r2).1 =
       Int.lor
         (imx377_write_reg r1 IMX377_REG_GAIN_H (gainEncodeHigh v)).1
         (imx377_write_reg r2 IMX377_REG_GAIN_L (gainEncodeLow v)).1 ∧
     ((imx377_write_reg r1 IMX377_REG_GAIN_H (gainEncodeHigh v)).1 = 0 →
       (imx377_set_ctrl true V4L2_CID_ANALOGUE_GAIN v r1 r2).1 =
         (imx377_write_reg r2 IMX377_REG_GAIN_L (gainEncodeLow v)).1) ∧
     ((imx377_write_reg r2 IMX377_REG_GAIN_L (gainEncodeLow v)).1 = 0 →
       (imx377_set_ctrl true V4L2_CID_ANALOGUE_GAIN v r1 r2).1 =
         (imx377_write_reg r1 IMX377_REG_GAIN_H (gainEncodeHigh v)).1)) := by
  have hne : V4L2_CID_ANALOGUE_GAIN ≠ V4L2_CID_EXPOSURE := by decide
  have hexp : imx377_set_ctrl true V4L2_CID_EXPOSURE v r1 r2 =
      (Int.lor
         (imx377_write_reg r1 IMX377_REG_EXPOSURE_H ((v >>> 8) &&& 0xFF)).1
         (imx377_write_reg r2 IMX377_REG_EXPOSURE_L (v &&& 0xFF)).1,
       (imx377_write_reg r1 IMX377_REG_EXPOSURE_H ((v >>> 8) &&& 0xFF)).2 ++
         (imx377_write_reg r2 IMX377_REG_EXPOSURE_L (v &&& 0xFF)).2) := by
    simp [imx377_set_ctrl]
  have hgain : imx377_set_ctrl true V4L2_CID_ANALOGUE_GAIN v r1 r2 =
      (Int.lor
         (imx377_write_reg r1 IMX377_REG_GAIN_H (gainEncodeHigh v)).1
         (imx377_write_reg r2 IMX377_REG_GAIN_L (gainEncodeLow v)).1,
       (imx377_write_reg r1 IMX377_REG_GAIN_H (gainEncodeHigh v)).2 ++
         (imx377_write_reg r2 IMX377_REG_GAIN_L (gainEncodeLow v)).2) := by
    simp [imx377_set_ctrl, hne]
  rw [hexp, hgain]
  refine ⟨⟨rfl, rfl, ?_, ?_⟩, rfl, rfl, ?_, ?_⟩
  · intro h
    simp only [h]
    exact int_zero_lor _
  · intro h
    simp only [h]
    exact int_lor_zero _
  · intro h
    simp only [h]
    exact int_zero_lor _
  · intro h
    simp only [h]
    exact int_lor_zero _

/-- C5 amended witness: while streaming with the exposure-high write
succeeding and the exposure-low write failing with bus error -7, the
returned status is that sole error -7. -/
theorem set_ctrl_or_aggregation_witness :
    (imx377_set_ctrl true V4L2_CID_EXPOSURE 0x0100 3 (-7)).1 =
      (imx377_write_reg (-7) IMX377_REG_EXPOSURE_L (0x0100 &&& 0xFF)).1 :=
  (set_ctrl_or_aggregation 0x0100 3 (-7)).1.2.2.1 (by decide)

/-- C6: while streaming, for every exposure value `v` the exposure
control issues exactly two register writes — the high byte
`(v >> 8) & 0xFF` to register 0x300B and the low byte `v & 0xFF` to
register 0x300C; in particular value 0x0100 writes high byte 0x01 and
low byte 0x00. -/
theorem set_ctrl_exposure_two_writes (v : Nat) (r1 r2 : Int) :
    (imx377_set_ctrl true V4L2_CID_EXPOSURE v r1 r2).2 =
      [Event.wr IMX377_REG_EXPOSURE_H ((v >>> 8) &&& 0xFF),
       Event.wr IMX377_REG_EXPOSURE_L (v &&& 0xFF)] ∧
    (imx377_set_ctrl true V4L2_CID_EXPOSURE v r1 r2).2.length = 2 ∧
    IMX377_REG_EXPOSURE_H = 0x300B ∧
    IMX377_REG_EXPOSURE_L = 0x300C ∧
    (imx377_set_ctrl true V4L2_CID_EXPOSURE 0x0100 r1 r2).2 =
      [Event.wr IMX377_REG_EXPOSURE_H 0x01,
       Event.wr IMX377_REG_EXPOSURE_L 0x00] := by
  have hhi : ((0x0100 : Nat) >>> 8) &&& 0xFF = 0x01 := by decide
  have hlo : (0x0100 : Nat) &&& 0xFF = 0x00 := by decide
  refine ⟨?_, ?_, rfl, rfl, ?_⟩ <;>
    simp [imx377_set_ctrl, imx377_write_reg, V4L2_CID_EXPOSURE, hhi, hlo]

/-- C7: when the device is not streaming, `set_control` with an in-range
value for gain or exposure returns success, issues zero register writes,
and the framework records the value as the stored control value. -/
theorem set_control_deferred (id v : Nat) (r1 r2 : Int) (d : Device)
    (hidle : d.streaming = false)
    (hrange : (id = V4L2_CID_ANALOGUE_GAIN ∧ v ≤ 0x7A5) ∨
              (id = V4L2_CID_EXPOSURE ∧ 1 ≤ v ∧ v ≤ 0xFFFF)) :
    (set_control id v r1 r2 d).1 = 0 ∧
    (set_control id v r1 r2 d).2.2 = [] ∧
    (id = V4L2_CID_ANALOGUE_GAIN → (set_control id v r1 r2 d).2.1.gain = v) ∧
    (id = V4L2_CID_EXPOSURE → (set_control id v r1 r2 d).2.1.exposure = v) := by
  rcases hrange with ⟨hid, _⟩ | ⟨hid, _⟩ <;> subst hid <;>
    simp [set_control, imx377_set_ctrl, hidle,
      V4L2_CID_ANALOGUE_GAIN, V4L2_CID_EXPOSURE]

/-- C7 witness: `set_control(Gain, 500)` on the initial (Idle) device
succeeds, issues no bus traffic, and the stored gain becomes 500. -/
theorem set_control_deferred_witness :
    (set_control V4L2_CID_ANALOGUE_GAIN 500 3 3 devInit).1 = 0 ∧
    (set_control V4L2_CID_ANALOGUE_GAIN 500 3 3 devInit).2.2 = [] ∧
    (set_control V4L2_CID_ANALOGUE_GAIN 500 3 3 devInit).2.1.gain = 500 := by
  have h := set_control_deferred V4L2_CID_ANALOGUE_GAIN 500 3 3 devInit
    (by decide) (Or.inl ⟨rfl, by decide⟩)
  exact ⟨h.1, h.2.1, h.2.2.1 rfl⟩

end IMX377
